import Mathlib

/-!
Verification development for a Go Standard-MIDI-File reader (package midi,
file filein.go).

Shallow embedding conventions:
- Go byte slices become `List Nat` with entries below 256; byte arithmetic
  that wraps in Go (shifts and additions on `byte`) carries an explicit
  `% 256`; `uint64` arithmetic carries `% U64`.
- Go `int64`/`int` indices become `Int`; a slice access out of range, which
  panics in Go, is modelled as `none` of an `Option` result, as are the
  explicit `panic` calls of the source.  `errors.New` results returned to
  the caller are modelled as `Except.error`.
- Go `float64` rates are modelled as exact fractions (`FloatQ`, an integer
  numerator and denominator, multiplied and divided componentwise and never
  normalised so that the kernel can evaluate them); `FloatQ.toRat` maps a
  value to the rational it denotes, and theorems state rate facts through
  that map.  Every claim about rates in this development compares values
  whose difference is orders of magnitude larger than any float rounding, so
  the exact idealisation is harmless; division by zero keeps a formal zero
  denominator where Go would produce an infinity, a case no claim touches.
- Loops whose bound is data dependent take an explicit fuel argument chosen
  at the call site large enough that exhaustion is unreachable for the
  states the theorems talk about; exhaustion is mapped to `none`.
-/

/-- Two to the sixty-fourth power, the modulus of Go `uint64` arithmetic. -/
def U64 : Nat := 18446744073709551616

/-- Reinterpret a `uint64` value as a Go `int64` (twos-complement wraparound), as the
Go conversion `int(b)` does in `filein.go` line 314. -/
def intOfU64 (u : Nat) : Int :=
  if u < 9223372036854775808 then (u : Int) else (u : Int) - (U64 : Int)

/-- Read element `i` of a list at a Go `int64` index; `none` models the
run-time panic of an out-of-range Go slice index. -/
def elemAt {α : Type} (l : List α) (i : Int) : Option α :=
  if h : 0 ≤ i ∧ i.toNat < l.length then some (l.get ⟨i.toNat, h.2⟩) else none

/-- Write element `i` of a list at a Go `int64` index; `none` models the
run-time panic of an out-of-range Go slice index. -/
def setAt {α : Type} (l : List α) (i : Int) (a : α) : Option (List α) :=
  if 0 ≤ i ∧ i.toNat < l.length then some (l.set i.toNat a) else none

/-- The Go subslice `b[i : i+n]`; `none` models the out-of-range panic. -/
def sliceAt (b : List Nat) (i : Int) (n : Nat) : Option (List Nat) :=
  if 0 ≤ i ∧ i.toNat + n ≤ b.length then some ((b.drop i.toNat).take n) else none

/-- Big-endian unsigned accumulation of `n` bytes starting at `i`, the core
of `binary.Read(..., binary.BigEndian, ...)` on `b[i : i+n]`. -/
def beU (b : List Nat) (i : Int) (n : Nat) : Option Nat :=
  (sliceAt b i n).map (fun bs => bs.foldl (fun a c => a * 256 + c) 0)

/-- Reinterpret 16 accumulated bits as a Go `int16`. -/
def toInt16 (v : Nat) : Int :=
  if v < 32768 then (v : Int) else (v : Int) - 65536

/-- Reinterpret 32 accumulated bits as a Go `int32`. -/
def toInt32 (v : Nat) : Int :=
  if v < 2147483648 then (v : Int) else (v : Int) - 4294967296

/-- Exact-fraction model of a Go `float64`: an unnormalised quotient of two
integers.  Products and quotients are taken componentwise, so kernel
evaluation never needs a gcd. -/
structure FloatQ where
  num : Int
  den : Int
deriving DecidableEq, Repr

/-- Componentwise product of two fractions. -/
def FloatQ.mul (a b : FloatQ) : FloatQ := ⟨a.num * b.num, a.den * b.den⟩

/-- Componentwise quotient of two fractions. -/
def FloatQ.div (a b : FloatQ) : FloatQ := ⟨a.num * b.den, a.den * b.num⟩

/-- The rational number a fraction denotes. -/
def FloatQ.toRat (a : FloatQ) : ℚ := (a.num : ℚ) / (a.den : ℚ)

/-- TempoChange mirrors the Go struct: an absolute tick count and the
seconds-per-tick rate in force from that tick. -/
structure TempoChange where
  Count : Nat
  TickSeconds : FloatQ
deriving DecidableEq, Repr

/-- MIDIFile mirrors the Go struct field for field. -/
structure MIDIFile where
  NumTracks : Int
  Format : Int
  Division : Int
  UsingTimeCode : Bool
  tickSeconds : List FloatQ
  trackPointers : List Int
  trackOffsets : List Int
  trackLengths : List Int
  trackStatus : List Nat
  tempoEvents : List TempoChange
  trackCounters : List Nat
  trackTempoIndex : List Nat
  rawData : List Nat
deriving DecidableEq, Repr

/-- Loop of `readVariableLength` (filein.go lines 387-401): while the high
bit of the current byte is set, keep accumulating 7 bits per byte.  The Go
loop first tests `bitIndex >= len(rawData)` and returns an error (the caller
panics on it, hence `none` here), then reads the byte.  Fuel exhaustion is
`none`; callers pass fuel that cannot run out. -/
def vlqLoop (data : List Nat) : Nat → Nat → Int → Option (Nat × Int)
  | 0, _, _ => none
  | fuel + 1, val, bitIndex =>
    if (data.length : Int) ≤ bitIndex then none
    else
      match elemAt data bitIndex with
      | none => none
      | some c =>
        -- (*val << 7) + uint64(c & 0x7F), wrapping in uint64
        let val2 := ((val * 128) + c % 128) % U64
        -- c & 0x80 == 0, i.e. bit 7 of the byte is clear
        if c % 256 < 128 then some (val2, bitIndex + 1)
        else vlqLoop data fuel val2 (bitIndex + 1)

/-- readVariableLength (filein.go lines 381-404): reads the first byte with
no bounds check (panic modelled as `none`), takes it whole if its high bit is
clear, otherwise masks to 7 bits and enters the continuation loop.  Returns
the decoded value and the index just past the last consumed byte. -/
def readVariableLength (data : List Nat) (bitIndex : Int) : Option (Nat × Int) :=
  match elemAt data bitIndex with
  | none => none
  | some c =>
    -- *val & 0x80 > 0: bit 7 of the first byte is set
    if 128 ≤ c % 256 then
      vlqLoop data (data.length + 1) (c % 128) (bitIndex + 1)
    else
      some (c, bitIndex + 1)

/-- The trailing-byte loop of NextEvent (filein.go lines 314-318): append
`count` raw bytes to the event, advancing the index. -/
def readBytes (data : List Nat) : Nat → Int → List Nat → Option (List Nat × Int)
  | 0, bitIndex, acc => some (acc, bitIndex)
  | n + 1, bitIndex, acc =>
    match elemAt data bitIndex with
    | none => none
    | some c => readBytes data n (bitIndex + 1) (acc ++ [c])

/-- Common tail of NextEvent (filein.go lines 313-343): append the `b`
pending raw bytes to the event (the count passes through the Go conversion
`int(b)`), then perform the rate updates of lines 320-338, store the new
cursor, and return the delta ticks with the assembled event. -/
def finishEvent (m : MIDIFile) (track : Int) (ticks : Nat) (ev : List Nat)
    (b : Nat) (bitIndex : Int) (isTempoEvent : Bool) :
    Option (MIDIFile × Nat × Option (List Nat)) :=
  match readBytes m.rawData (intOfU64 b).toNat bitIndex ev with
  | none => none
  | some (event, biEnd) =>
    -- lines 320-327: immediate tempo update outside timecode mode.
    -- Go computes event[3]<<16 + event[4]<<8 + event[5] in byte arithmetic:
    -- each shift and each addition wraps modulo 256.
    let step1 : Option MIDIFile :=
      if m.UsingTimeCode = false then
        if isTempoEvent = true then
          match event.get? 3, event.get? 4, event.get? 5 with
          | some e3, some e4, some e5 =>
            let tickrate : FloatQ := ⟨m.Division.emod 32768, 1⟩
            let value : Nat := (((e3 * 65536) % 256 + (e4 * 256) % 256) % 256 + e5) % 256
            (setAt m.tickSeconds track
                (FloatQ.div (FloatQ.mul ⟨1, 1000000⟩ ⟨(value : Int), 1⟩) tickrate)).map
              (fun ts => { m with tickSeconds := ts })
          | _, _, _ => none
        else some m
      else some m
    match step1 with
    | none => none
    | some m1 =>
      -- lines 329-337: format-1 shared tempo map bookkeeping.
      let step2 : Option MIDIFile :=
        if m1.UsingTimeCode = false ∧ m1.Format = 1 then
          match elemAt m1.trackCounters track with
          | none => none
          | some counter =>
            let counter2 := (counter + ticks) % U64
            match setAt m1.trackCounters track counter2 with
            | none => none
            | some counters2 =>
              let m2 := { m1 with trackCounters := counters2 }
              match elemAt m2.trackTempoIndex track with
              | none => none
              | some idx =>
                match m2.tempoEvents.get? idx with
                | none => none
                | some te =>
                  if te.Count ≤ counter2 ∧ (idx : Int) < (m2.tempoEvents.length : Int) - 1 then
                    match setAt m2.trackTempoIndex track (idx + 1) with
                    | none => none
                    | some idxs =>
                      match setAt m2.tickSeconds track te.TickSeconds with
                      | none => none
                      | some ts =>
                        some { m2 with trackTempoIndex := idxs, tickSeconds := ts }
                  else some m2
        else some m1
      match step2 with
      | none => none
      | some m3 =>
        match setAt m3.trackPointers track biEnd with
        | none => none
        | some ptrs => some ({ m3 with trackPointers := ptrs }, ticks, some event)

/-- NextEvent (filein.go lines 230-344).  Returns the updated file state,
the decoded delta ticks, and the raw event bytes; `(state, 0, none)` is the
normal end-of-track result, outer `none` models a panic.  In the source the
Sysex `case 0xF0 | 0xF1 | ... | 0xF7` is a bitwise OR of the constants and
is kept verbatim: it matches only the single value it evaluates to. -/
def NextEvent (m : MIDIFile) (track : Int) : Option (MIDIFile × Nat × Option (List Nat)) :=
  if m.NumTracks ≤ track then none
  else
    match elemAt m.trackPointers track, elemAt m.trackOffsets track,
        elemAt m.trackLengths track with
    | some ptr, some off, some tlen =>
      if tlen ≤ ptr - off then some (m, 0, none)
      else
        match readVariableLength m.rawData ptr with
        | none => none
        | some (ticks, i1) =>
          match elemAt m.rawData i1 with
          | none => none
          | some c =>
            let i2 := i1 + 1
            if c = 0xFF then
              -- lines 256-272: a Meta event
              match setAt m.trackStatus track 0 with
              | none => none
              | some sts =>
                let m1 := { m with trackStatus := sts }
                match elemAt m1.rawData i2 with
                | none => none
                | some c2 =>
                  let i3 := i2 + 1
                  let isTempoEvent : Bool := if m1.Format ≠ 1 ∧ c2 = 0x51 then true else false
                  match readVariableLength m1.rawData i3 with
                  | none => none
                  | some (blen, i4) =>
                    let b := (blen + (i4 - i3).toNat) % U64
                    finishEvent m1 track ticks [c, c2] b i3 isTempoEvent
            else if c = (0xF0 ||| 0xF1 ||| 0xF2 ||| 0xF3 ||| 0xF4 ||| 0xF5 ||| 0xF6 ||| 0xF7) then
              -- lines 274-285: the Sysex case of the source switch
              match setAt m.trackStatus track 0 with
              | none => none
              | some sts =>
                let m1 := { m with trackStatus := sts }
                match readVariableLength m1.rawData i2 with
                | none => none
                | some (blen, i3) =>
                  let b := (blen + (i3 - i2).toNat) % U64
                  finishEvent m1 track ticks [c] b i2 false
            else
              -- lines 288-310: should be a MIDI channel event
              -- c & 0x80 > 0: bit 7 of the byte is set
              if 128 ≤ c % 256 then
                if 0xF0 < c then none
                else
                  match setAt m.trackStatus track c with
                  | none => none
                  | some sts =>
                    let m1 := { m with trackStatus := sts }
                    -- c &= 0xF0: keep the high nibble of the byte
                    let cm := c % 256 / 16 * 16
                    let b : Nat := if cm = 0xC0 ∨ cm = 0xD0 then 1 else 2
                    finishEvent m1 track ticks [c] b i2 false
              else
                match elemAt m.trackStatus track with
                | none => none
                | some st =>
                  -- trackStatus[track] & 0x80 == 1 as written in the source:
                  -- the mask value (0 or 128) is compared against 1
                  if st % 256 / 128 * 128 = 1 then
                    let cm := st % 256 / 16 * 16
                    let b : Nat := if cm ≠ 0xC0 ∧ cm ≠ 0xD0 then 1 else 0
                    finishEvent m track ticks [st, c] b i2 false
                  else none
    | _, _, _ => none

/-- RewindTrack (filein.go lines 363-371): cursor back to the track offset,
running status cleared, rate restored from tempo-map entry 0. -/
def RewindTrack (m : MIDIFile) (track : Int) : Option MIDIFile :=
  if m.NumTracks ≤ track then none
  else
    match elemAt m.trackOffsets track with
    | none => none
    | some off =>
      match setAt m.trackPointers track off with
      | none => none
      | some ptrs =>
        match setAt m.trackStatus track 0 with
        | none => none
        | some sts =>
          match m.tempoEvents.get? 0 with
          | none => none
          | some te =>
            match setAt m.tickSeconds track te.TickSeconds with
            | none => none
            | some ts =>
              some { m with trackPointers := ptrs, trackStatus := sts, tickSeconds := ts }

/-- TickSeconds accessor (filein.go lines 373-379). -/
def TickSeconds (m : MIDIFile) (track : Int) : Option FloatQ :=
  if m.NumTracks ≤ track then none else elemAt m.tickSeconds track

/-- Loop of NextMIDIEvent (filein.go lines 353-358): keep pulling events
while the current one exists and its first byte is at least 0xF0.  Reading
`midiEvent[0]` of an empty event would panic, hence `none`. -/
def nmeLoop (track : Int) : Nat → MIDIFile → Nat × Option (List Nat) →
    Option (MIDIFile × Nat × Option (List Nat))
  | _, m, (ticks, none) => some (m, ticks, none)
  | fuel, m, (ticks, some e) =>
    match e with
    | [] => none
    | c :: _ =>
      if c < 0xF0 then some (m, ticks, some e)
      else
        match fuel with
        | 0 => none
        | fuel' + 1 =>
          match NextEvent m track with
          | none => none
          | some (m', r) => nmeLoop track fuel' m' r

/-- NextMIDIEvent (filein.go lines 346-361): skip meta and sysex events,
returning only the final channel-voice event and the delta ticks of the last
NextEvent call. -/
def NextMIDIEvent (m : MIDIFile) (track : Int) : Option (MIDIFile × Nat × Option (List Nat)) :=
  if m.NumTracks ≤ track then none
  else
    match NextEvent m track with
    | none => none
    | some (m1, r) => nmeLoop track (m.rawData.length + 1) m1 r

/-- ASCII bytes of the header magic "MThd". -/
def mthd : List Nat := [77, 84, 104, 100]

/-- ASCII bytes of the track magic "MTrk". -/
def mtrk : List Nat := [77, 84, 114, 107]

/-- Track indexing loop of parseRawData (filein.go lines 148-173): for each
track check the "MTrk" magic, read the big-endian 32-bit chunk length,
record offset and length, and skip to the next chunk.  Returns the offset
and length lists (every per-track array of the same pass is derived from
these in `parseRawData`). -/
def indexTracks (b : List Nat) : Nat → Int → List Int → List Int →
    Option (Except String (List Int × List Int))
  | 0, _, offs, lens => some (Except.ok (offs, lens))
  | rem + 1, bitIndex, offs, lens =>
    match sliceAt b bitIndex 4 with
    | none => none
    | some magic =>
      if magic ≠ mtrk then some (Except.error "invalid track header")
      else
        match beU b (bitIndex + 4) 4 with
        | none => none
        | some lv =>
          let tlen := toInt32 lv
          indexTracks b rem (bitIndex + 8 + tlen) (offs ++ [bitIndex + 8]) (lens ++ [tlen])

/-- Tempo-map collection loop of parseRawData (filein.go lines 194-214):
while events remain on track 0, record each tempo meta-event at its
accumulated tick count, appending to the map or overwriting its last entry
when the count has not advanced.  The tempo value is computed in Go byte
arithmetic exactly as in the source.  Fuel exhaustion is `none`. -/
def tempoLoop (tickrate : FloatQ) : Nat → MIDIFile → Nat → Option (List Nat) → Option MIDIFile
  | _, m, _, none => some m
  | fuel, m, count, some event =>
    let upd : Option MIDIFile :=
      if event.length = 6 ∧ event.get? 0 = some 0xFF ∧
          event.get? 1 = some 0x51 ∧ event.get? 2 = some 0x03 then
        match event.get? 3, event.get? 4, event.get? 5 with
        | some e3, some e4, some e5 =>
          let value : Nat := (((e3 * 65536) % 256 + (e4 * 256) % 256) % 256 + e5) % 256
          let newTs : FloatQ := FloatQ.div (FloatQ.mul ⟨1, 1000000⟩ ⟨(value : Int), 1⟩) tickrate
          match m.tempoEvents.getLast? with
          | none => none
          | some lastE =>
            if lastE.Count < count then
              some { m with tempoEvents := m.tempoEvents ++ [⟨count, newTs⟩] }
            else
              some { m with tempoEvents := m.tempoEvents.dropLast ++ [⟨count, newTs⟩] }
        | _, _, _ => none
      else some m
    match upd with
    | none => none
    | some mU =>
      match fuel with
      | 0 => none
      | fuel' + 1 =>
        match NextEvent mU 0 with
        | none => none
        | some (m2, countNew, ev2) =>
          tempoLoop tickrate fuel' m2 ((count + countNew) % U64) ev2

/-- Header and track-indexing stage of parseRawData (filein.go lines
74-180): header validation, track chunk indexing, default rate
initialisation, and the initial tempo-map entry.  `Except.error` models the
`errors.New` returns, outer `none` a panic. -/
def parseHeader (b : List Nat) : Option (Except String MIDIFile) :=
  match sliceAt b 0 4 with
  | none => none
  | some chunkType =>
    if chunkType ≠ mthd then some (Except.error "invalid header") else
    match beU b 4 4 with
    | none => none
    | some lv =>
      if toInt32 lv ≠ 6 then some (Except.error "does not appear to be a MIDI file.") else
      match beU b 8 2 with
      | none => none
      | some fv =>
        let format := toInt16 fv
        if format < 0 ∨ 2 < format then some (Except.error "invalid format") else
        match beU b 10 2 with
        | none => none
        | some nv =>
          let numTracks := toInt16 nv
          if format = 0 ∧ numTracks ≠ 1 then
            some (Except.error "invalid number of tracks (>0) for a file format = 0! ")
          else
            match beU b 12 2 with
            | none => none
            | some dv =>
              let division := toInt16 dv
              -- lines 125-136: Go tests Division & 0x8000 > 0, i.e. bit 15 of
              -- the twos-complement value; & masks are rendered with emod.
              let timeCode : Bool := if 32768 ≤ division.emod 65536 then true else false
              let tickrate : FloatQ :=
                if timeCode then
                  -- -int(Division) & 0x7F00, kept unshifted as in the source
                  let t0 : Int := (-division).emod 32768 - (-division).emod 256
                  let t1 : FloatQ := if t0 = 29 then ⟨2997, 100⟩ else ⟨t0, 1⟩
                  FloatQ.mul t1 ⟨division.emod 256, 1⟩
                else ⟨division.emod 256, 1⟩
              -- make([]T, numTracks) panics on a negative count
              if numTracks < 0 then none else
              let n := numTracks.toNat
              match indexTracks b n 14 [] [] with
              | none => none
              | some (Except.error e) => some (Except.error e)
              | some (Except.ok (offs, lens)) =>
                let tsVal : FloatQ :=
                  if timeCode then FloatQ.div ⟨1, 1⟩ tickrate
                  else FloatQ.div ⟨1, 2⟩ tickrate
                let m0 : MIDIFile :=
                  { NumTracks := numTracks, Format := format, Division := division,
                    UsingTimeCode := timeCode,
                    tickSeconds := List.replicate n tsVal,
                    trackPointers := offs, trackOffsets := offs, trackLengths := lens,
                    trackStatus := List.replicate n 0,
                    tempoEvents := [], trackCounters := [], trackTempoIndex := [],
                    rawData := b }
                -- lines 176-180: the initial tempo entry reads tickSeconds[0]
                match m0.tickSeconds.get? 0 with
                | none => none
                | some ts0 =>
                  some (Except.ok { m0 with tempoEvents := [⟨0, ts0⟩] })

/-- Tempo-map pre-pass of parseRawData (filein.go lines 182-225), applied to
the state produced by the header and track-indexing stage.  Runs only for
format-1 files not using timecode; the header tick rate is recomputed from
the stored division, which in this branch is exactly the non-timecode value
`Division & 0x00FF` the header stage used. -/
def tempoMapPhase (m1 : MIDIFile) : Option (Except String MIDIFile) :=
  if m1.Format = (1 : Int) ∧ m1.UsingTimeCode = false then
    let tickrate : FloatQ := ⟨m1.Division.emod 256, 1⟩
    let n := m1.NumTracks.toNat
    let m2 := { m1 with UsingTimeCode := true }
    match NextEvent m2 0 with
    | none => none
    | some (m3, count, ev) =>
      match tempoLoop tickrate (m1.rawData.length + 1) m3 count ev with
      | none => none
      | some m4 =>
        match RewindTrack m4 0 with
        | none => none
        | some m5 =>
          some (Except.ok { m5 with
            trackCounters := List.replicate n 0,
            trackTempoIndex := List.replicate n 0,
            UsingTimeCode := false })
  else some (Except.ok m1)

/-- parseRawData (filein.go lines 74-228): the header and track-indexing
stage followed by the conditional tempo-map pre-pass. -/
def parseRawData (b : List Nat) : Option (Except String MIDIFile) :=
  match parseHeader b with
  | none => none
  | some (Except.error e) => some (Except.error e)
  | some (Except.ok m1) => tempoMapPhase m1


deriving instance DecidableEq for Except

/-- State produced by the header and track-indexing stage for a file whose
division has bit 15 clear: every per-track array is seeded as in filein.go
lines 142-180 (cursors at the chunk offsets, statuses zero, the default
rate everywhere, one initial tempo entry copying tickSeconds[0]). -/
def headerState (data : List Nat) (numTracks format division : Int)
    (offs lens : List Int) (ts : FloatQ) : MIDIFile :=
  { NumTracks := numTracks, Format := format, Division := division,
    UsingTimeCode := false, tickSeconds := List.replicate numTracks.toNat ts,
    trackPointers := offs, trackOffsets := offs, trackLengths := lens,
    trackStatus := List.replicate numTracks.toNat 0,
    tempoEvents := [⟨0, ts⟩], trackCounters := [], trackTempoIndex := [],
    rawData := data }

/-- Format-0 file, division 96; its track holds a note-on event followed by
a running-status event (first byte 0x40, high bit clear). -/
def c1data : List Nat :=
  [77, 84, 104, 100, 0, 0, 0, 6, 0, 0, 0, 1, 0, 96,
   77, 84, 114, 107, 0, 0, 0, 7, 0, 144, 60, 64, 0, 64, 64]

/-- Parse result of `c1data`. -/
def c1m : MIDIFile := headerState c1data 1 0 96 [22] [7] ⟨1, 192⟩

/-- State of `c1m` after its first event: cursor past the note-on, running
status 0x90 stored. -/
def c1m1 : MIDIFile := { c1m with trackPointers := [26], trackStatus := [144] }

/-- Format-0 file, division 96; its track holds a Sysex event: status 0xF0,
VLQ length 3, payload 0x41 0x42 0xF7. -/
def c2data : List Nat :=
  [77, 84, 104, 100, 0, 0, 0, 6, 0, 0, 0, 1, 0, 96,
   77, 84, 114, 107, 0, 0, 0, 6, 0, 240, 3, 65, 66, 247]

/-- Parse result of `c2data`. -/
def c2m : MIDIFile := headerState c2data 1 0 96 [22] [6] ⟨1, 192⟩

/-- State of `c2m` after NextEvent consumed the 0xF0 event as a two-data-byte
channel event, storing 0xF0 as running status. -/
def c2m1 : MIDIFile := { c2m with trackPointers := [26], trackStatus := [240] }

/-- Format-1 file, two tracks, division 96.  Track 0 carries one tempo
meta-event (0x07A120 = 500000) at delta 480; track 1 carries two note
events at delta 480 each. -/
def c3data : List Nat :=
  [77, 84, 104, 100, 0, 0, 0, 6, 0, 1, 0, 2, 0, 96,
   77, 84, 114, 107, 0, 0, 0, 8, 131, 96, 255, 81, 3, 7, 161, 32,
   77, 84, 114, 107, 0, 0, 0, 10, 131, 96, 144, 60, 64, 131, 96, 144, 60, 0]

/-- Header-stage state of `c3data`. -/
def c3h : MIDIFile := headerState c3data 2 1 96 [22, 38] [8, 10] ⟨1, 192⟩

/-- Parse result of `c3data`: the tempo map has gained the entry at tick
480 and the per-track counters and tempo indices are zeroed. -/
def c3m : MIDIFile :=
  { c3h with
    tempoEvents := [⟨0, ⟨1, 192⟩⟩, ⟨480, ⟨32, 96000000⟩⟩],
    trackCounters := [0, 0], trackTempoIndex := [0, 0] }

/-- State of `c3m` after the first NextEvent on track 1: counter 480,
tempo index advanced to 1, rate still the entry-0 rate. -/
def c3m1 : MIDIFile :=
  { c3m with
    trackPointers := [22, 43], trackStatus := [0, 144],
    trackCounters := [0, 480], trackTempoIndex := [0, 1] }

/-- State of `c3m1` after the second NextEvent on track 1: counter 960,
index stuck at the last entry, rate still the entry-0 rate. -/
def c3m2 : MIDIFile :=
  { c3m1 with trackPointers := [22, 48], trackCounters := [0, 960] }

/-- Format-0 file, division 480 (bytes 0x01 0xE0); its track holds one
tempo meta-event with payload 0x07 0xA1 0x20, encoding 500000. -/
def c4data : List Nat :=
  [77, 84, 104, 100, 0, 0, 0, 6, 0, 0, 0, 1, 1, 224,
   77, 84, 114, 107, 0, 0, 0, 7, 0, 255, 81, 3, 7, 161, 32]

/-- Parse result of `c4data` (initial rate 0.5/224 by the division low-byte
mask of filein.go line 135). -/
def c4m : MIDIFile := headerState c4data 1 0 480 [22] [7] ⟨1, 448⟩

/-- State of `c4m` after the tempo meta-event: the code computed the tempo
value 32 (the low payload byte alone), so the rate became
32 x 0.000001 / 480. -/
def c4m1 : MIDIFile :=
  { c4m with trackPointers := [29], tickSeconds := [⟨32, 480000000⟩] }

/-- Format-0 file, division 480 (bytes 0x01 0xE0), empty track. -/
def c5data : List Nat :=
  [77, 84, 104, 100, 0, 0, 0, 6, 0, 0, 0, 1, 1, 224,
   77, 84, 114, 107, 0, 0, 0, 0]

/-- Parse result of `c5data`: the initial rate is 0.5/224, using only the
low byte of the 480 division. -/
def c5m : MIDIFile := headerState c5data 1 0 480 [22] [0] ⟨1, 448⟩

/-- Format-0 file, division 96, whose track declares length 2 but whose
first event (delta, status, two data bytes) is 4 bytes long. -/
def c6data : List Nat :=
  [77, 84, 104, 100, 0, 0, 0, 6, 0, 0, 0, 1, 0, 96,
   77, 84, 114, 107, 0, 0, 0, 2, 0, 144, 64, 64]

/-- Parse result of `c6data`. -/
def c6m : MIDIFile := headerState c6data 1 0 96 [22] [2] ⟨1, 192⟩

/-- State of `c6m` after NextEvent consumed the 4-byte event: the cursor
sits at offset+4, two bytes past the declared track end. -/
def c6m1 : MIDIFile := { c6m with trackPointers := [26], trackStatus := [144] }

/-- Format-1 file, two tracks, division 96.  Track 0 carries a tempo
meta-event at delta 0, which overwrites tempo-map entry 0. -/
def c9data : List Nat :=
  [77, 84, 104, 100, 0, 0, 0, 6, 0, 1, 0, 2, 0, 96,
   77, 84, 114, 107, 0, 0, 0, 7, 0, 255, 81, 3, 7, 161, 32,
   77, 84, 114, 107, 0, 0, 0, 4, 0, 144, 60, 64]

/-- Header-stage state of `c9data`. -/
def c9h : MIDIFile := headerState c9data 2 1 96 [22, 37] [7, 4] ⟨1, 192⟩

/-- Parse result of `c9data`: entry 0 was overwritten by the tick-0 tempo
event, track 0 was rewound onto it, but track 1 keeps the default rate. -/
def c9m : MIDIFile :=
  { c9h with
    tickSeconds := [⟨32, 96000000⟩, ⟨1, 192⟩],
    tempoEvents := [⟨0, ⟨32, 96000000⟩⟩],
    trackCounters := [0, 0], trackTempoIndex := [0, 0] }

/-- Format-0 file, division 96; its track holds an end-of-track meta-event
at delta 5 followed by a note-on at delta 3. -/
def c10data : List Nat :=
  [77, 84, 104, 100, 0, 0, 0, 6, 0, 0, 0, 1, 0, 96,
   77, 84, 114, 107, 0, 0, 0, 8, 5, 255, 47, 0, 3, 144, 100, 100]

/-- Parse result of `c10data`. -/
def c10m : MIDIFile := headerState c10data 1 0 96 [22] [8] ⟨1, 192⟩

/-- State of `c10m` after the meta-event at delta 5. -/
def c10m1 : MIDIFile := { c10m with trackPointers := [26] }

/-- State of `c10m1` after the note-on at delta 3. -/
def c10m2 : MIDIFile := { c10m with trackPointers := [30], trackStatus := [144] }

/-- Bounds carried by a successful `elemAt` read. -/
theorem elemAt_pos {α : Type} {l : List α} {i : Int} {a : α}
    (h : elemAt l i = some a) : 0 ≤ i ∧ i.toNat < l.length := by
  by_cases hc : 0 ≤ i ∧ i.toNat < l.length
  · exact hc
  · rw [elemAt, dif_neg hc] at h
    cases h

/-- A one-byte variable-length quantity: a first byte with bit 7 clear
decodes to itself and consumes exactly one byte. -/
theorem vlq_one {d : List Nat} {i : Int} {c : Nat}
    (h : elemAt d i = some c) (hc : c % 256 < 128) :
    readVariableLength d i = some (c, i + 1) := by
  simp only [readVariableLength, h]
  rw [if_neg (by omega)]

/-- A two-byte variable-length quantity: continuation byte then a final
byte decodes to the 14-bit value and consumes exactly two bytes. -/
theorem vlq_two {d : List Nat} {i : Int} {c0 c1 : Nat}
    (h0 : elemAt d i = some c0) (hb0 : 128 ≤ c0 % 256)
    (h1 : elemAt d (i + 1) = some c1) (hb1 : c1 % 256 < 128) :
    readVariableLength d i = some (((c0 % 128) * 128 + c1 % 128) % U64, i + 2) := by
  have hp1 := elemAt_pos h1
  simp only [readVariableLength, h0]
  rw [if_pos hb0, vlqLoop]
  rw [if_neg (by omega)]
  simp only [h1]
  rw [if_pos hb1]
  norm_num
  omega

/-- A three-byte variable-length quantity: two continuation bytes then a
final byte decodes to the 21-bit value and consumes exactly three bytes. -/
theorem vlq_three {d : List Nat} {i : Int} {c0 c1 c2 : Nat}
    (h0 : elemAt d i = some c0) (hb0 : 128 ≤ c0 % 256)
    (h1 : elemAt d (i + 1) = some c1) (hb1 : 128 ≤ c1 % 256)
    (h2 : elemAt d (i + 2) = some c2) (hb2 : c2 % 256 < 128) :
    readVariableLength d i =
      some (((((c0 % 128) * 128 + c1 % 128) % U64) * 128 + c2 % 128) % U64, i + 3) := by
  have hp1 := elemAt_pos h1
  have hp2 := elemAt_pos h2
  obtain ⟨k, hk⟩ : ∃ k, d.length = k + 1 := ⟨d.length - 1, by omega⟩
  simp only [readVariableLength, h0]
  rw [if_pos hb0, vlqLoop]
  rw [if_neg (by omega)]
  simp only [h1]
  rw [if_neg (by omega)]
  rw [hk, vlqLoop]
  rw [if_neg (by omega)]
  rw [show i + 1 + 1 = i + 2 by ring]
  simp only [h2]
  rw [if_pos hb2]
  norm_num
  omega

/-- C8: for every value v in {0, 127, 128, 16383, 16384, 2097151}, when the
standard VLQ encoding of v sits at an in-bounds offset of the raw buffer,
`readVariableLength` returns exactly v, consumes exactly 1, 1, 2, 2, 3, 3
bytes respectively, and returns the offset immediately past the last
consumed byte (the first byte with high bit clear). -/
theorem C8_vlq_decode (d : List Nat) (i : Int) :
    (elemAt d i = some 0x00 → readVariableLength d i = some (0, i + 1)) ∧
    (elemAt d i = some 0x7F → readVariableLength d i = some (127, i + 1)) ∧
    (elemAt d i = some 0x81 → elemAt d (i + 1) = some 0x00 →
      readVariableLength d i = some (128, i + 2)) ∧
    (elemAt d i = some 0xFF → elemAt d (i + 1) = some 0x7F →
      readVariableLength d i = some (16383, i + 2)) ∧
    (elemAt d i = some 0x81 → elemAt d (i + 1) = some 0x80 → elemAt d (i + 2) = some 0x00 →
      readVariableLength d i = some (16384, i + 3)) ∧
    (elemAt d i = some 0xFF → elemAt d (i + 1) = some 0xFF → elemAt d (i + 2) = some 0x7F →
      readVariableLength d i = some (2097151, i + 3)) := by
  refine ⟨?_, ?_, ?_, ?_, ?_, ?_⟩
  · intro h0
    rw [vlq_one h0 (by norm_num)]
  · intro h0
    rw [vlq_one h0 (by norm_num)]
  · intro h0 h1
    rw [vlq_two h0 (by norm_num) h1 (by norm_num)]
    norm_num [U64]
  · intro h0 h1
    rw [vlq_two h0 (by norm_num) h1 (by norm_num)]
    norm_num [U64]
  · intro h0 h1 h2
    rw [vlq_three h0 (by norm_num) h1 (by norm_num) h2 (by norm_num)]
    norm_num [U64]
  · intro h0 h1 h2
    rw [vlq_three h0 (by norm_num) h1 (by norm_num) h2 (by norm_num)]
    norm_num [U64]

/-- Witness for C8 on concrete buffers holding each encoding. -/
theorem C8_vlq_decode_witness :
    readVariableLength [0] 0 = some (0, 1) ∧
    readVariableLength [127] 0 = some (127, 1) ∧
    readVariableLength [129, 0] 0 = some (128, 2) ∧
    readVariableLength [255, 127] 0 = some (16383, 2) ∧
    readVariableLength [129, 128, 0] 0 = some (16384, 3) ∧
    readVariableLength [255, 255, 127] 0 = some (2097151, 3) :=
  ⟨(C8_vlq_decode [0] 0).1 (by decide),
   (C8_vlq_decode [127] 0).2.1 (by decide),
   (C8_vlq_decode [129, 0] 0).2.2.1 (by decide) (by decide),
   (C8_vlq_decode [255, 127] 0).2.2.2.1 (by decide) (by decide),
   (C8_vlq_decode [129, 128, 0] 0).2.2.2.2.1 (by decide) (by decide) (by decide),
   (C8_vlq_decode [255, 255, 127] 0).2.2.2.2.2 (by decide) (by decide) (by decide)⟩

/-- A header-stage error is the result of the whole parse. -/
theorem parseRawData_of_header_error {b : List Nat} {e : String}
    (h : parseHeader b = some (Except.error e)) :
    parseRawData b = some (Except.error e) := by
  simp only [parseRawData, h]

/-- C7: each malformed-input condition of the header and track-indexing
stage yields a recoverable error and no file object: a non-"MThd" magic, a
declared header length other than 6, a format outside {0,1,2}, format 0
with a track count other than 1, and a non-"MTrk" track-chunk magic (the
last two conjuncts: a mismatched chunk makes the indexing loop error, and
an indexing-loop error is the result of the whole parse). -/
theorem C7_parse_rejects (b : List Nat) :
    (∀ ct, sliceAt b 0 4 = some ct → ct ≠ mthd →
      parseRawData b = some (Except.error "invalid header")) ∧
    (∀ lv, sliceAt b 0 4 = some mthd → beU b 4 4 = some lv → toInt32 lv ≠ 6 →
      parseRawData b = some (Except.error "does not appear to be a MIDI file.")) ∧
    (∀ lv fv, sliceAt b 0 4 = some mthd → beU b 4 4 = some lv → toInt32 lv = 6 →
      beU b 8 2 = some fv → (toInt16 fv < 0 ∨ 2 < toInt16 fv) →
      parseRawData b = some (Except.error "invalid format")) ∧
    (∀ lv fv nv, sliceAt b 0 4 = some mthd → beU b 4 4 = some lv → toInt32 lv = 6 →
      beU b 8 2 = some fv → toInt16 fv = 0 → beU b 10 2 = some nv → toInt16 nv ≠ 1 →
      parseRawData b =
        some (Except.error "invalid number of tracks (>0) for a file format = 0! ")) ∧
    (∀ rem bi offs lens magic, sliceAt b bi 4 = some magic → magic ≠ mtrk →
      indexTracks b (rem + 1) bi offs lens = some (Except.error "invalid track header")) ∧
    (∀ lv fv nv dv e, sliceAt b 0 4 = some mthd → beU b 4 4 = some lv → toInt32 lv = 6 →
      beU b 8 2 = some fv → ¬(toInt16 fv < 0 ∨ 2 < toInt16 fv) →
      beU b 10 2 = some nv → ¬(toInt16 fv = 0 ∧ toInt16 nv ≠ 1) →
      beU b 12 2 = some dv → ¬(toInt16 nv < 0) →
      indexTracks b (toInt16 nv).toNat 14 [] [] = some (Except.error e) →
      parseRawData b = some (Except.error e)) := by
  refine ⟨?_, ?_, ?_, ?_, ?_, ?_⟩
  · intro ct hsl hne
    apply parseRawData_of_header_error
    simp only [parseHeader, hsl]
    rw [if_pos hne]
  · intro lv hsl hbe hne
    apply parseRawData_of_header_error
    simp only [parseHeader, hsl, hbe]
    rw [if_neg (fun h => h rfl), if_pos hne]
  · intro lv fv hsl hbe hl6 hfv hbad
    apply parseRawData_of_header_error
    simp only [parseHeader, hsl, hbe, hfv]
    rw [if_neg (fun h => h rfl), if_neg (fun h => h hl6), if_pos hbad]
  · intro lv fv nv hsl hbe hl6 hfv hf0 hnv hnt
    apply parseRawData_of_header_error
    simp only [parseHeader, hsl, hbe, hfv, hnv]
    rw [if_neg (fun h => h rfl), if_neg (fun h => h hl6), if_neg (by omega),
      if_pos ⟨hf0, hnt⟩]
  · intro rem bi offs lens magic hsl hne
    simp only [indexTracks, hsl]
    rw [if_pos hne]
  · intro lv fv nv dv e hsl hbe hl6 hfv hfr hnv hn01 hdv hnn herr
    apply parseRawData_of_header_error
    simp only [parseHeader, hsl, hbe, hfv, hnv, hdv]
    rw [if_neg (fun h => h rfl), if_neg (fun h => h hl6), if_neg hfr, if_neg hn01,
      if_neg hnn]
    simp only [herr]

/-- Witness for C7 on concrete malformed buffers, one per condition. -/
theorem C7_parse_rejects_witness :
    parseRawData [88, 88, 88, 88] = some (Except.error "invalid header") ∧
    parseRawData [77, 84, 104, 100, 0, 0, 0, 7] =
      some (Except.error "does not appear to be a MIDI file.") ∧
    parseRawData [77, 84, 104, 100, 0, 0, 0, 6, 0, 3] =
      some (Except.error "invalid format") ∧
    parseRawData [77, 84, 104, 100, 0, 0, 0, 6, 0, 0, 0, 2] =
      some (Except.error "invalid number of tracks (>0) for a file format = 0! ") ∧
    indexTracks [1, 2, 3, 4] 1 0 [] [] =
      some (Except.error "invalid track header") ∧
    parseRawData [77, 84, 104, 100, 0, 0, 0, 6, 0, 1, 0, 1, 0, 96,
        77, 84, 114, 88, 0, 0, 0, 0] =
      some (Except.error "invalid track header") :=
  ⟨(C7_parse_rejects _).1 [88, 88, 88, 88] (by decide) (by decide),
   (C7_parse_rejects _).2.1 7 (by decide) (by decide) (by decide),
   (C7_parse_rejects _).2.2.1 6 3 (by decide) (by decide) (by decide) (by decide)
     (by decide),
   (C7_parse_rejects _).2.2.2.1 6 0 2 (by decide) (by decide) (by decide) (by decide)
     (by decide) (by decide) (by decide),
   (C7_parse_rejects _).2.2.2.2.1 0 0 [] [] [1, 2, 3, 4] (by decide) (by decide),
   (C7_parse_rejects _).2.2.2.2.2 6 1 1 96 "invalid track header" (by decide)
     (by decide) (by decide) (by decide) (by decide) (by decide) (by decide)
     (by decide) (by decide) (by decide)⟩

/-- Parse of the running-status test file. -/
theorem c1_parse : parseRawData c1data = some (Except.ok c1m) := by
  have h1 : parseHeader c1data = some (Except.ok c1m) := by decide
  have h2 : tempoMapPhase c1m = some (Except.ok c1m) := by decide
  simp only [parseRawData, h1]
  exact h2

/-- Parse of the Sysex test file. -/
theorem c2_parse : parseRawData c2data = some (Except.ok c2m) := by
  have h1 : parseHeader c2data = some (Except.ok c2m) := by decide
  have h2 : tempoMapPhase c2m = some (Except.ok c2m) := by decide
  simp only [parseRawData, h1]
  exact h2

/-- Parse of the format-1 tempo-map test file (tempo change at tick 480). -/
theorem c3_parse : parseRawData c3data = some (Except.ok c3m) := by
  have h1 : parseHeader c3data = some (Except.ok c3h) := by decide
  have h2 : tempoMapPhase c3h = some (Except.ok c3m) := by decide
  simp only [parseRawData, h1]
  exact h2

/-- Parse of the tempo-payload test file (division 480). -/
theorem c4_parse : parseRawData c4data = some (Except.ok c4m) := by
  have h1 : parseHeader c4data = some (Except.ok c4m) := by decide
  have h2 : tempoMapPhase c4m = some (Except.ok c4m) := by decide
  simp only [parseRawData, h1]
  exact h2

/-- Parse of the division-480 empty-track file. -/
theorem c5_parse : parseRawData c5data = some (Except.ok c5m) := by
  have h1 : parseHeader c5data = some (Except.ok c5m) := by decide
  have h2 : tempoMapPhase c5m = some (Except.ok c5m) := by decide
  simp only [parseRawData, h1]
  exact h2

/-- Parse of the short-declared-track file. -/
theorem c6_parse : parseRawData c6data = some (Except.ok c6m) := by
  have h1 : parseHeader c6data = some (Except.ok c6m) := by decide
  have h2 : tempoMapPhase c6m = some (Except.ok c6m) := by decide
  simp only [parseRawData, h1]
  exact h2

/-- Parse of the format-1 tick-0 tempo file. -/
theorem c9_parse : parseRawData c9data = some (Except.ok c9m) := by
  have h1 : parseHeader c9data = some (Except.ok c9h) := by decide
  have h2 : tempoMapPhase c9h = some (Except.ok c9m) := by decide
  simp only [parseRawData, h1]
  exact h2

/-- Parse of the meta-then-note file. -/
theorem c10_parse : parseRawData c10data = some (Except.ok c10m) := by
  have h1 : parseHeader c10data = some (Except.ok c10m) := by decide
  have h2 : tempoMapPhase c10m = some (Except.ok c10m) := by decide
  simp only [parseRawData, h1]
  exact h2

/-- C1: the running-status shorthand never succeeds.  In the parsed file
`c1data` the first event stores the channel-voice status 0x90, exactly the
precondition of the claim; the next candidate byte 0x40 has its high bit
clear, yet NextEvent panics (returns `none`) instead of emitting
0x90 0x40 0x40, because the source compares `trackStatus & 0x80`, a value
that is always 0 or 128, against 1. -/
theorem C1_running_status_always_panics :
    parseRawData c1data = some (Except.ok c1m) ∧
    NextEvent c1m 0 = some (c1m1, 0, some [144, 60, 64]) ∧
    elemAt c1m1.trackStatus 0 = some 144 ∧
    NextEvent c1m1 0 = none :=
  ⟨c1_parse, by decide, by decide, by decide⟩

/-- C2: a 0xF0 Sysex event is not handled by the Sysex case.  The source
case label `0xF0 | 0xF1 | ... | 0xF7` is a bitwise OR equal to 0xF7 alone,
so the 0xF0 byte of the parsed file `c2data` falls to the channel-event
branch: it is stored as the running status (instead of clearing it), and
exactly two fixed data bytes are consumed (instead of a VLQ length and its
payload), leaving the cursor at offset+4 instead of offset+6. -/
theorem C2_sysex_f0_becomes_running_status :
    parseRawData c2data = some (Except.ok c2m) ∧
    NextEvent c2m 0 = some (c2m1, 0, some [240, 3, 65]) ∧
    elemAt c2m1.trackStatus 0 = some 240 ∧
    elemAt c2m1.trackPointers 0 = some 26 ∧
    (0xF0 ||| 0xF1 ||| 0xF2 ||| 0xF3 ||| 0xF4 ||| 0xF5 ||| 0xF6 ||| 0xF7 : Nat) = 0xF7 :=
  ⟨c2_parse, by decide, by decide, by decide, by decide⟩

/-- C3: the shared tempo map never hands the rate of its final entry to a
track.  The parsed format-1 file `c3data` produces exactly one non-initial
tempo entry, at tick 480.  Track 1 accumulates 480 and then 960 ticks over
two events, so the 480 threshold is reached, yet its tickSeconds remains
the entry-0 rate 1/192 (the guard `tempoIndex < len(tempoEvents)-1` of
filein.go line 333 blocks the final entry, and the update takes the rate at
the pre-increment index), never the new rate adopted at the threshold as
claimed. -/
theorem C3_tempo_threshold_rate_not_adopted :
    parseRawData c3data = some (Except.ok c3m) ∧
    c3m.tempoEvents = [⟨0, ⟨1, 192⟩⟩, ⟨480, ⟨32, 96000000⟩⟩] ∧
    NextEvent c3m 1 = some (c3m1, 480, some [144, 60, 64]) ∧
    NextEvent c3m1 1 = some (c3m2, 480, some [144, 60, 0]) ∧
    elemAt c3m2.trackCounters 1 = some 960 ∧
    TickSeconds c3m2 1 = some ⟨1, 192⟩ ∧
    FloatQ.toRat ⟨1, 192⟩ ≠ FloatQ.toRat ⟨32, 96000000⟩ := by
  refine ⟨c3_parse, by decide, by decide, by decide, by decide, by decide, ?_⟩
  norm_num [FloatQ.toRat]

/-- C4: the tempo payload is truncated to its low byte.  In the parsed
file `c4data` (division 480), the tempo meta-event payload 0x07 0xA1 0x20
encodes 500000, but the byte-typed shifts of filein.go line 324 evaluate to
zero, so the code computes the value 32 = 0x20 and sets the rate to
32 x 0.000001 / 480 instead of 500000 x 0.000001 / 480. -/
theorem C4_tempo_payload_low_byte_only :
    parseRawData c4data = some (Except.ok c4m) ∧
    NextEvent c4m 0 = some (c4m1, 0, some [255, 81, 3, 7, 161, 32]) ∧
    TickSeconds c4m1 0 = some ⟨32, 480000000⟩ ∧
    FloatQ.toRat ⟨32, 480000000⟩ = (32 : ℚ) * (1 / 1000000) / 480 ∧
    FloatQ.toRat ⟨32, 480000000⟩ ≠ (500000 : ℚ) * (1 / 1000000) / 480 := by
  refine ⟨c4_parse, by decide, by decide, ?_, ?_⟩
  · norm_num [FloatQ.toRat]
  · norm_num [FloatQ.toRat]

/-- C5: in ticks-per-quarter-note mode the initial rate divides 0.5 by only
the low byte of the division.  The parsed file `c5data` declares division
480 with bit 15 clear, yet every track starts at 0.5/224 (filein.go line
135 masks with 0x00FF, so 480 becomes 224), not the claimed 0.5/480. -/
theorem C5_initial_rate_uses_division_low_byte :
    parseRawData c5data = some (Except.ok c5m) ∧
    c5m.Division = 480 ∧
    TickSeconds c5m 0 = some ⟨1, 448⟩ ∧
    FloatQ.toRat ⟨1, 448⟩ = (1 / 2 : ℚ) / 224 ∧
    FloatQ.toRat ⟨1, 448⟩ ≠ (1 / 2 : ℚ) / 480 := by
  refine ⟨c5_parse, by decide, by decide, ?_, ?_⟩
  · norm_num [FloatQ.toRat]
  · norm_num [FloatQ.toRat]

/-- C6 (amended): a cursor at or past the declared track end makes
NextEvent report normal end-of-track, leaving the state unchanged; there is
no corruption check, so a cursor already past offset+length is tolerated
the same way as one exactly at it. -/
theorem C6_end_is_silent (m : MIDIFile) (track : Int) (ptr off tlen : Int)
    (h0 : ¬ m.NumTracks ≤ track)
    (hp : elemAt m.trackPointers track = some ptr)
    (ho : elemAt m.trackOffsets track = some off)
    (hl : elemAt m.trackLengths track = some tlen)
    (hend : tlen ≤ ptr - off) :
    NextEvent m track = some (m, 0, none) := by
  simp only [NextEvent, hp, ho, hl]
  rw [if_neg h0, if_pos hend]

/-- Witness for the amended C6 on the overrun state of `c6data`: cursor 26
is two bytes past the declared end 22+2, and the next call still returns
plain end-of-track. -/
theorem C6_end_is_silent_witness :
    NextEvent c6m1 0 = some (c6m1, 0, none) :=
  C6_end_is_silent c6m1 0 26 22 2 (by decide) (by decide) (by decide) (by decide)
    (by decide)

/-- C6 (counterexample): the parsed file `c6data` declares track length 2,
but NextEvent consumes its 4-byte event without any error and leaves the
cursor at offset+4 > offset+2, violating the claimed invariant
`cursor ≤ offset+length` and the claim that exceeding the declared length
is a hard parse error rather than being silently tolerated. -/
theorem C6_cursor_overruns_silently :
    parseRawData c6data = some (Except.ok c6m) ∧
    elemAt c6m.trackOffsets 0 = some 22 ∧
    elemAt c6m.trackLengths 0 = some 2 ∧
    NextEvent c6m 0 = some (c6m1, 0, some [144, 64, 64]) ∧
    elemAt c6m1.trackPointers 0 = some 26 ∧
    ¬((26 : Int) - 22 ≤ 2) :=
  ⟨c6_parse, by decide, by decide, by decide, by decide, by decide⟩

/-- C9 (amended): RewindTrack resets the cursor to the track offset, the
running status to none, and the rate to the tempo-map entry-0 rate. -/
theorem C9_rewind_resets (m : MIDIFile) (track off : Int) (te : TempoChange)
    (h0 : ¬ m.NumTracks ≤ track)
    (ho : elemAt m.trackOffsets track = some off)
    (hp : track.toNat < m.trackPointers.length)
    (hs : track.toNat < m.trackStatus.length)
    (ht : track.toNat < m.tickSeconds.length)
    (hte : m.tempoEvents.get? 0 = some te) :
    RewindTrack m track = some { m with
      trackPointers := m.trackPointers.set track.toNat off,
      trackStatus := m.trackStatus.set track.toNat 0,
      tickSeconds := m.tickSeconds.set track.toNat te.TickSeconds } := by
  have hot := elemAt_pos ho
  simp only [RewindTrack, setAt, ho, hte]
  rw [if_neg h0, if_pos ⟨hot.1, hp⟩, if_pos ⟨hot.1, hs⟩, if_pos ⟨hot.1, ht⟩]

/-- Witness for the amended C9 on track 1 of the parsed `c9data`. -/
theorem C9_rewind_resets_witness :
    RewindTrack c9m 1 = some { c9m with
      trackPointers := c9m.trackPointers.set (1 : Int).toNat 37,
      trackStatus := c9m.trackStatus.set (1 : Int).toNat 0,
      tickSeconds := c9m.tickSeconds.set (1 : Int).toNat
        (⟨0, ⟨32, 96000000⟩⟩ : TempoChange).TickSeconds } :=
  C9_rewind_resets c9m 1 37 ⟨0, ⟨32, 96000000⟩⟩ (by decide) (by decide) (by decide)
    (by decide) (by decide) (by decide)

/-- C9 (counterexample): in the parsed format-1 file `c9data`, track 0
carries a tempo event at tick 0, which overwrote tempo-map entry 0.  The
TickSeconds of track 1 observed immediately after construction is the
default 1/192, but RewindTrack(1) sets it to the overwritten entry-0 rate
32/96000000, a different value — so the entry-0 rate does not equal the
post-construction TickSeconds for every track. -/
theorem C9_rewind_changes_rate :
    parseRawData c9data = some (Except.ok c9m) ∧
    TickSeconds c9m 1 = some ⟨1, 192⟩ ∧
    (RewindTrack c9m 1).bind (fun m2 => TickSeconds m2 1) = some ⟨32, 96000000⟩ ∧
    FloatQ.toRat ⟨1, 192⟩ ≠ FloatQ.toRat ⟨32, 96000000⟩ := by
  refine ⟨c9_parse, by decide, by decide, ?_⟩
  norm_num [FloatQ.toRat]

/-- A successful NextEvent call implies the track index was in range. -/
theorem NextEvent_some_track_lt {m : MIDIFile} {track : Int}
    {r : MIDIFile × Nat × Option (List Nat)}
    (h : NextEvent m track = some r) : ¬ m.NumTracks ≤ track := by
  intro hle
  rw [NextEvent, if_pos hle] at h
  exact Option.noConfusion h

/-- The NextMIDIEvent loop stops at a channel-voice event (first byte
below 0xF0) with whatever fuel remains. -/
theorem nmeLoop_done (track : Int) (fuel : Nat) (mA : MIDIFile) (tA c : Nat)
    (r : List Nat) (hc : c < 0xF0) :
    nmeLoop track fuel mA (tA, some (c :: r)) = some (mA, tA, some (c :: r)) := by
  cases fuel <;> simp only [nmeLoop] <;> rw [if_pos hc]

/-- C10: when NextMIDIEvent skips a meta or sysex event (first byte at
least 0xF0) and the following NextEvent yields a channel-voice event, the
returned delta ticks are exactly those of the returned event alone — the
delta t1 of the skipped event is discarded, whatever it was, so an absolute-tick
sum over NextMIDIEvent results undercounts the NextEvent sum by t1. -/
theorem C10_skipped_delta_discarded
    (m m1 m2 : MIDIFile) (track : Int) (t1 t2 c1 c2 : Nat) (r1 r2 : List Nat)
    (h1 : NextEvent m track = some (m1, t1, some (c1 :: r1)))
    (hc1 : 0xF0 ≤ c1)
    (h2 : NextEvent m1 track = some (m2, t2, some (c2 :: r2)))
    (hc2 : c2 < 0xF0) :
    NextMIDIEvent m track = some (m2, t2, some (c2 :: r2)) := by
  have hlt := NextEvent_some_track_lt h1
  simp only [NextMIDIEvent, h1]
  rw [if_neg hlt]
  simp only [nmeLoop]
  rw [if_neg (by omega)]
  simp only [h2]
  exact nmeLoop_done track m.rawData.length m2 t2 c2 r2 hc2

/-- Witness for C10 on the parsed file `c10data`: the end-of-track
meta-event at delta 5 is skipped and NextMIDIEvent returns only the note-on
delta 3, not 5+3. -/
theorem C10_skipped_delta_discarded_witness :
    parseRawData c10data = some (Except.ok c10m) ∧
    NextMIDIEvent c10m 0 = some (c10m2, 3, some [144, 100, 100]) ∧
    (3 : Nat) ≠ 5 + 3 := by
  refine ⟨c10_parse, ?_, by decide⟩
  exact C10_skipped_delta_discarded c10m c10m1 c10m2 0 5 3 255 144 [47, 0] [100, 100]
    (by decide) (by decide) (by decide) (by decide)
